import Mathlib

/-!
# Verification of the x402-server-telemetry invocation-recording pipeline

This file gives a shallow embedding, in Lean 4, of the core of the
`x402-server-telemetry` package and proves the frozen specification claims
about it.

Embedding conventions:
* JavaScript strings are Lean `String`s; JS `null`/`undefined` degrade to
  `Option`.
* The platform primitives the source leans on (`Headers.get`,
  `Buffer.from(·, 'base64')`, `JSON.parse`, `JSON.stringify`) are given
  executable Lean models with the same observable behaviour on the inputs
  the package handles (ASCII payloads; the base64 decoder is lenient the
  way Node's is, the JSON model keeps integral numeric values, which is all
  the source ever inspects).
* Mutation (the telemetry context writing through to the request metadata,
  body streams being consumed) becomes explicit state passing.
* Wall-clock reads (`Date.now()`), `randomUUID()` and `randomBytes` become
  parameters of an environment record, one per request.
* Fire-and-forget store writes are modelled by returning the list of rows
  handed to the store adapter; the adapter itself is modelled in an
  explicit exception monad so that "never throws" is a real statement.
-/

namespace X402T

/-! ## JSON values (model of the platform's JSON.parse / JSON.stringify) -/

/-- A JSON value.  Numbers are kept as integers: the telemetry source never
inspects a numeric JSON value, it only checks `typeof x === 'string'`. -/
inductive Json where
  | null : Json
  | bool : Bool → Json
  | num : Int → Json
  | str : String → Json
  | arr : List Json → Json
  | obj : List (String × Json) → Json
deriving Repr, Inhabited

/-- Member lookup on a JSON object.  `JSON.parse` keeps the last duplicate
key, hence the search over the reversed member list.  On non-objects the
lookup yields `none` (JS optional chaining `?.` on such values gives
`undefined`). -/
def Json.getMember : Json → String → Option Json
  | .obj fs, k => (fs.reverse.find? (fun p => p.1 = k)).map (fun p => p.2)
  | _, _ => none

/-- JS optional-chain step `o?.k` on an optional JSON value. -/
def jsChain (o : Option Json) (k : String) : Option Json :=
  match o with
  | some j => j.getMember k
  | none => none

/-- JS nullish coalescing `a ?? b`: both `undefined` (here `none`) and a
JSON `null` value fall through to the right operand. -/
def jsNullish (a b : Option Json) : Option Json :=
  match a with
  | some Json.null => b
  | none => b
  | some v => some v

/-- Project a JSON string value. -/
def Json.asString : Json → Option String
  | .str s => some s
  | _ => none

/-- Project a (nonnegative) JSON numeric value. -/
def Json.asNat : Json → Option Nat
  | .num n => n.toNat'
  | _ => none

/-- Walk a path of member names through nested JSON objects. -/
def jsonPath (j : Json) (path : List String) : Option Json :=
  path.foldl jsChain (some j)

/-- Is a JSON value falsy in JS (`!x` true)?  `undefined`/`NaN` have no
representation here; of the representable values exactly `null`, `false`,
`0` and `""` are falsy. -/
def Json.falsy : Json → Bool
  | .null => true
  | .bool false => true
  | .num 0 => true
  | .str "" => true
  | _ => false

/-! ### JSON.stringify -/

/-- Hex digit for string escapes. -/
def hexDigitChar (n : Nat) : Char :=
  if n < 10 then Char.ofNat (48 + n) else Char.ofNat (87 + n)

/-- Escape one character the way `JSON.stringify` does. -/
def jsonEscapeChar (c : Char) : String :=
  if c = '"' then "\\\""
  else if c = '\\' then "\\\\"
  else if c = '\n' then "\\n"
  else if c = '\r' then "\\r"
  else if c = '\t' then "\\t"
  else if c = '\x08' then "\\b"
  else if c = '\x0c' then "\\f"
  else if c.toNat < 0x20 then
    String.mk ['\\', 'u', '0', '0', hexDigitChar (c.toNat / 16), hexDigitChar (c.toNat % 16)]
  else String.singleton c

/-- Quote a string the way `JSON.stringify` does. -/
def jsonQuote (s : String) : String :=
  "\"" ++ String.join (s.data.map jsonEscapeChar) ++ "\""

mutual

/-- Model of `JSON.stringify`. -/
def Json.stringify : Json → String
  | .null => "null"
  | .bool true => "true"
  | .bool false => "false"
  | .num n => toString n
  | .str s => jsonQuote s
  | .arr xs => "[" ++ stringifyItems xs ++ "]"
  | .obj fs => "\x7b" ++ stringifyMembers fs ++ "\x7d"

/-- Comma-separated array items. -/
def stringifyItems : List Json → String
  | [] => ""
  | [x] => x.stringify
  | x :: y :: xs => x.stringify ++ "," ++ stringifyItems (y :: xs)

/-- Comma-separated object members. -/
def stringifyMembers : List (String × Json) → String
  | [] => ""
  | [(k, v)] => jsonQuote k ++ ":" ++ v.stringify
  | (k, v) :: m :: ms => jsonQuote k ++ ":" ++ v.stringify ++ "," ++ stringifyMembers (m :: ms)

end

/-! ### JSON.parse -/

/-- Skip JSON whitespace. -/
def skipWs (cs : List Char) : List Char :=
  cs.dropWhile (fun c => c = ' ' ∨ c = '\n' ∨ c = '\t' ∨ c = '\r')

/-- Strip an expected keyword from the front of the input. -/
def stripWord : List Char → List Char → Option (List Char)
  | [], cs => some cs
  | w :: ws, c :: cs => if c = w then stripWord ws cs else none
  | _ :: _, [] => none

/-- Value of a hex digit. -/
def hexVal (c : Char) : Option Nat :=
  if '0' ≤ c ∧ c ≤ '9' then some (c.toNat - 48)
  else if 'a' ≤ c ∧ c ≤ 'f' then some (c.toNat - 87)
  else if 'A' ≤ c ∧ c ≤ 'F' then some (c.toNat - 55)
  else none

/-- Unescape one simple JSON string escape. -/
def escChar (c : Char) : Option Char :=
  if c = '"' then some '"'
  else if c = '\\' then some '\\'
  else if c = '/' then some '/'
  else if c = 'b' then some '\x08'
  else if c = 'f' then some '\x0c'
  else if c = 'n' then some '\n'
  else if c = 'r' then some '\r'
  else if c = 't' then some '\t'
  else none

/-- Parse the body of a JSON string (the opening quote already consumed),
accumulating characters; returns the string and the remaining input. -/
def parseStringAux (acc : List Char) : List Char → Option (String × List Char)
  | [] => none
  | c :: rest =>
    if c = '"' then some (String.mk acc.reverse, rest)
    else if c = '\\' then
      match rest with
      | [] => none
      | e :: rest2 =>
        if e = 'u' then
          match rest2 with
          | h1 :: h2 :: h3 :: h4 :: rest3 =>
            match hexVal h1, hexVal h2, hexVal h3, hexVal h4 with
            | some a, some b, some c2, some d =>
              parseStringAux (Char.ofNat (a * 4096 + b * 256 + c2 * 16 + d) :: acc) rest3
            | _, _, _, _ => none
          | _ => none
        else
          match escChar e with
          | some ch => parseStringAux (ch :: acc) rest2
          | none => none
    else parseStringAux (c :: acc) rest
termination_by cs => cs.length

/-- Digits to a natural number. -/
def natOfDigits (ds : List Char) : Nat :=
  ds.foldl (fun n c => n * 10 + (c.toNat - 48)) 0

/-- Consume an optional JSON exponent part. -/
def consumeExponent (cs : List Char) : Option (List Char) :=
  match cs with
  | 'e' :: rest | 'E' :: rest =>
    let rest1 := match rest with
      | '+' :: r => r
      | '-' :: r => r
      | r => r
    let ds := rest1.takeWhile Char.isDigit
    if ds.isEmpty then none else some (rest1.drop ds.length)
  | _ => some cs

/-- Consume an optional JSON fraction part. -/
def consumeFraction (cs : List Char) : Option (List Char) :=
  match cs with
  | '.' :: rest =>
    let ds := rest.takeWhile Char.isDigit
    if ds.isEmpty then none else some (rest.drop ds.length)
  | _ => some cs

/-- Parse a JSON number.  The fraction and exponent are validated and
consumed; the retained value is the integer part (see `Json.num`). -/
def parseNumber (cs : List Char) : Option (Json × List Char) :=
  let (neg, cs1) := match cs with
    | '-' :: r => (true, r)
    | r => (false, r)
  let ds := cs1.takeWhile Char.isDigit
  if ds.isEmpty then none
  else
    let v : Int := natOfDigits ds
    match consumeFraction (cs1.drop ds.length) with
    | none => none
    | some rest1 =>
      match consumeExponent rest1 with
      | none => none
      | some rest2 => some (Json.num (if neg then -v else v), rest2)

mutual

/-- Fuel-driven recursive-descent JSON value parser.  The fuel strictly
decreases on every recursive call; `jsonParse` supplies enough fuel for any
input of the given length, so running out of fuel only happens on inputs
that would anyway be rejected. -/
def parseValue : Nat → List Char → Option (Json × List Char)
  | 0, _ => none
  | _ + 1, [] => none
  | fuel + 1, c :: rest =>
    if c = '"' then (parseStringAux [] rest).map (fun p => (Json.str p.1, p.2))
    else if c = '\x7b' then
      match skipWs rest with
      | '\x7d' :: rest2 => some (Json.obj [], rest2)
      | rest2 => (parseMembers fuel rest2).map (fun p => (Json.obj p.1, p.2))
    else if c = '[' then
      match skipWs rest with
      | ']' :: rest2 => some (Json.arr [], rest2)
      | rest2 => (parseItems fuel rest2).map (fun p => (Json.arr p.1, p.2))
    else if c = 'n' then (stripWord ['n', 'u', 'l', 'l'] (c :: rest)).map (fun r => (Json.null, r))
    else if c = 't' then (stripWord ['t', 'r', 'u', 'e'] (c :: rest)).map (fun r => (Json.bool true, r))
    else if c = 'f' then
      (stripWord ['f', 'a', 'l', 's', 'e'] (c :: rest)).map (fun r => (Json.bool false, r))
    else if c = '-' ∨ c.isDigit then parseNumber (c :: rest)
    else none

/-- Parse the members of a JSON object (after `\x7b` and leading
whitespace), up to and including the closing brace. -/
def parseMembers : Nat → List Char → Option (List (String × Json) × List Char)
  | 0, _ => none
  | fuel + 1, cs =>
    match cs with
    | '"' :: rest =>
      match parseStringAux [] rest with
      | none => none
      | some (k, r1) =>
        match skipWs r1 with
        | ':' :: r2 =>
          match parseValue fuel (skipWs r2) with
          | none => none
          | some (v, r3) =>
            match skipWs r3 with
            | ',' :: r4 => (parseMembers fuel (skipWs r4)).map (fun p => ((k, v) :: p.1, p.2))
            | '\x7d' :: r4 => some ([(k, v)], r4)
            | _ => none
        | _ => none
    | _ => none

/-- Parse the items of a JSON array (after `[` and leading whitespace), up
to and including the closing bracket. -/
def parseItems : Nat → List Char → Option (List Json × List Char)
  | 0, _ => none
  | fuel + 1, cs =>
    match parseValue fuel cs with
    | none => none
    | some (v, r1) =>
      match skipWs r1 with
      | ',' :: r2 => (parseItems fuel (skipWs r2)).map (fun p => (v :: p.1, p.2))
      | ']' :: r2 => some ([v], r2)
      | _ => none

end

/-- Model of `JSON.parse` as used by the source: a total function returning
`none` exactly where `JSON.parse` throws (the callers wrap it in
`try/catch`). -/
def jsonParse (s : String) : Option Json :=
  match parseValue (s.length + 1) (skipWs s.data) with
  | some (j, rest) => if skipWs rest = [] then some j else none
  | none => none

/-! ## Base64 (model of Node's `Buffer.from(s, 'base64').toString()`) -/

/-- Value of one base64 alphabet character (standard and url-safe
alphabets, as Node accepts both); `none` for characters Node's lenient
decoder skips. -/
def b64Val (c : Char) : Option Nat :=
  if 'A' ≤ c ∧ c ≤ 'Z' then some (c.toNat - 65)
  else if 'a' ≤ c ∧ c ≤ 'z' then some (c.toNat - 71)
  else if '0' ≤ c ∧ c ≤ '9' then some (c.toNat + 4)
  else if c = '+' ∨ c = '-' then some 62
  else if c = '/' ∨ c = '_' then some 63
  else none

/-- Regroup a list of sextets into bytes: 4 sextets make 3 bytes, a
2-sextet tail makes 1 byte, a 3-sextet tail makes 2, a lone sextet is
dropped — matching Node's lenient base64 decoder. -/
def sextetsToBytes : List Nat → List Nat
  | a :: b :: c :: d :: rest =>
    (a * 4 + b / 16) :: ((b % 16) * 16 + c / 4) :: ((c % 4) * 64 + d) :: sextetsToBytes rest
  | [a, b] => [a * 4 + b / 16]
  | [a, b, c] => [a * 4 + b / 16, (b % 16) * 16 + c / 4]
  | _ => []

/-- Lenient UTF-8 decoding of a byte list (Node's `buffer.toString()`):
exact on ASCII and well-formed multi-byte sequences, degrading to the
replacement character elsewhere. -/
def utf8Chars : List Nat → List Char
  | [] => []
  | b :: rest =>
    if b < 0x80 then Char.ofNat b :: utf8Chars rest
    else if b < 0xc0 then Char.ofNat 0xfffd :: utf8Chars rest
    else if b < 0xe0 then
      match rest with
      | b2 :: rest2 => Char.ofNat ((b % 32) * 64 + b2 % 64) :: utf8Chars rest2
      | [] => [Char.ofNat 0xfffd]
    else if b < 0xf0 then
      match rest with
      | b2 :: b3 :: rest3 =>
        Char.ofNat ((b % 16) * 4096 + (b2 % 64) * 64 + b3 % 64) :: utf8Chars rest3
      | _ => [Char.ofNat 0xfffd]
    else
      match rest with
      | b2 :: b3 :: b4 :: rest4 =>
        Char.ofNat ((b % 8) * 262144 + (b2 % 64) * 4096 + (b3 % 64) * 64 + b4 % 64) ::
          utf8Chars rest4
      | _ => [Char.ofNat 0xfffd]

/-- Model of `Buffer.from(s, 'base64').toString()`: never throws — invalid
characters are skipped, `=` ends the input, the bytes are decoded as
(lenient) UTF-8. -/
def b64decode (s : String) : String :=
  String.mk (utf8Chars (sextetsToBytes ((s.data.takeWhile (fun c => c ≠ '=')).filterMap b64Val)))

/-- JS `toLowerCase()` — the ASCII case mapping applied per character.
Defined by a direct list map so that it evaluates by kernel reduction
(core's `String.toLower` is well-founded-recursive and does not). -/
def jsToLower (s : String) : String :=
  String.mk (s.data.map Char.toLower)

/-! ## Headers (model of the Fetch `Headers` object) -/

/-- An immutable view of a Fetch `Headers` object: a list of name/value
pairs.  Lookup is case-insensitive, as in the platform. -/
structure HeadersT where
  entries : List (String × String)
deriving Repr, DecidableEq

/-- `Headers.get`: case-insensitive lookup, `null` (here `none`) when the
header is absent. -/
def HeadersT.get (h : HeadersT) (name : String) : Option String :=
  (h.entries.find? (fun p => jsToLower p.1 = jsToLower name)).map (fun p => p.2)

/-- `JSON.stringify(Object.fromEntries(headers.entries()))`: the iterator
yields lower-cased header names. -/
def headersJsonString (h : HeadersT) : String :=
  Json.stringify (Json.obj (h.entries.map (fun p => (jsToLower p.1, Json.str p.2))))

/-! ## extract-wallet.ts -/

/-- Step 2 of `extractVerifiedWallet` (`src/extract-wallet.ts:20-40`):
decode the `PAYMENT-SIGNATURE` / `X-PAYMENT` header.  The header is looked
up under both spellings with `??`; a falsy (absent or empty) header yields
`null`; otherwise the header is base64-decoded and JSON-parsed, the payer
is read from `payload.authorization.from` with `payload.from` as the `??`
fallback, and only a string value is returned (lowercased). -/
def extractFromPaymentHeader (headers : HeadersT) : Option String :=
  let paymentHeader :=
    headers.get "PAYMENT-SIGNATURE" <|> headers.get "payment-signature" <|>
      headers.get "X-PAYMENT" <|> headers.get "x-payment"
  match paymentHeader with
  | none => none
  | some ph =>
    if ph = "" then none
    else
      match jsonParse (b64decode ph) with
      | none => none
      | some decoded =>
        let fromVal :=
          jsNullish (jsChain (jsChain (jsChain (some decoded) "payload") "authorization") "from")
            (jsChain (jsChain (some decoded) "payload") "from")
        match fromVal with
        | some (Json.str s) => some (jsToLower s)
        | _ => none

/-- `extractVerifiedWallet` (`src/extract-wallet.ts:12-44`): a truthy
(present and non-empty) `x-payer-address` header wins and is returned
lowercased; otherwise the payment header is decoded.  Total — the source
wraps everything in `try/catch` and returns `null` on any failure. -/
def extractVerifiedWallet (headers : HeadersT) : Option String :=
  match headers.get "x-payer-address" with
  | some payerAddress =>
    if payerAddress ≠ "" then some (jsToLower payerAddress)
    else extractFromPaymentHeader headers
  | none => extractFromPaymentHeader headers

end X402T

namespace X402T

/-! ## Requests, responses and body streams

A Fetch body is a one-shot stream: reading it consumes it, `clone()`
produces an object with an independent unconsumed stream, and cloning an
already-disturbed body throws.  The mutable stream state is passed
explicitly. -/

/-- A one-shot body stream. -/
structure Stream where
  content : String
  consumed : Bool
deriving Repr, DecidableEq

/-- The inbound request, as the telemetry layer sees a `NextRequest`:
method, `nextUrl` components, headers and the body stream. -/
structure RequestT where
  method : String
  pathname : String
  origin : String
  url : String
  hostname : String
  searchParams : List (String × String)
  headers : HeadersT
  body : Stream
deriving Repr, DecidableEq

/-- The response object: status, headers and the body stream. -/
structure ResponseT where
  status : Nat
  headers : HeadersT
  body : Stream
deriving Repr, DecidableEq

/-- `NextResponse.json(value, responseStatus)`: a fresh response with an
`application/json` content type and the serialized value as its (unread)
body. -/
def nextResponseJson (value : Json) (responseStatus : Nat) : ResponseT :=
  { status := responseStatus
    headers := ⟨[("content-type", "application/json")]⟩
    body := { content := Json.stringify value, consumed := false } }

/-- The JSON error body `{ success: false, error: message }`. -/
def errJson (message : String) : Json :=
  Json.obj [("success", Json.bool false), ("error", Json.str message)]

/-! ## Per-request environment

`randomUUID()`, the two `Date.now()` reads and the configured origin are
inputs of one wrapped invocation. -/

/-- Ambient inputs of one recorded invocation: the generated request id,
the wall clock at entry (`t0`) and at record time (`t1`), and the
process-wide configured origin (`initTelemetry`'s `origin` option). -/
structure Env where
  rid : String
  t0 : Nat
  t1 : Nat
  configuredOrigin : Option String
deriving Repr, DecidableEq

/-! ## clickhouse.ts — the store adapter

The ClickHouse client is a process-wide `Option`: `none` before
`initClickhouse`.  The client's `insert` is external; its possible
behaviours (resolve, reject later, throw synchronously) are enumerated so
that `insertInvocation`'s `try/catch` structure can be translated into an
explicit exception monad (`Except String`), where `.error` means "an
exception escapes to the caller". -/

/-- Row shape of the `mcp_resource_invocations` table
(`McpResourceInvocation` in `types.ts`).  `created_at` is a wall-clock
timestamp in milliseconds. -/
structure McpResourceInvocation where
  id : String
  x_wallet_address : Option String
  x_client_id : Option String
  session_id : Option String
  verified_wallet_address : Option String
  method : String
  route : String
  origin : String
  referer : Option String
  request_content_type : Option String
  request_headers : Option String
  request_body : Option String
  status_code : Nat
  status_text : String
  duration : Int
  response_content_type : Option String
  response_headers : Option String
  response_body : Option String
  created_at : Nat
deriving Repr, DecidableEq

/-- Possible behaviours of the external ClickHouse client's `insert`. -/
inductive ClientBehavior where
  | resolves : ClientBehavior
  | rejectsLater : String → ClientBehavior
  | throwsSync : String → ClientBehavior
deriving Repr, DecidableEq

/-- `clickhouseClient.insert(...)`: either throws synchronously (outer
`Except.error`) or yields a promise whose eventual outcome is the inner
`Except` (consumed only by the attached `.catch` logger). -/
def clientInsert (b : ClientBehavior) : Except String (Except String Unit) :=
  match b with
  | .resolves => .ok (.ok ())
  | .rejectsLater m => .ok (.error m)
  | .throwsSync m => .error m

/-- Observable outcome of one `insertInvocation` call: the console logs it
emitted (including those the detached `.catch` will emit) and the rows
actually handed to the underlying client. -/
structure InsertOut where
  logs : List String
  clientWrites : List McpResourceInvocation
deriving Repr, DecidableEq

/-- The `try` block of `insertInvocation` (`src/clickhouse.ts:49-71`): an
uninitialized client logs and returns; otherwise the row goes to the
client without awaiting, and a `.catch` handler turns an eventual
rejection into a log line. -/
def insertInvocationTry (client : Option ClientBehavior) (data : McpResourceInvocation) :
    Except String InsertOut :=
  match client with
  | none =>
    .ok { logs := ["[x402-telemetry] ClickHouse client not initialized. Call initTelemetry() first."]
          clientWrites := [] }
  | some b => do
    let promise ← clientInsert b
    let laterLogs := match promise with
      | .ok _ => []
      | .error m => ["[x402-telemetry] ClickHouse insert failed: " ++ m]
    pure { logs := laterLogs, clientWrites := [data] }

/-- `insertInvocation` (`src/clickhouse.ts:48-80`): the `try` block wrapped
in the outer `catch` that logs a synchronous throw.  An `Except.error`
result would mean an exception escaping to the caller. -/
def insertInvocation (client : Option ClientBehavior) (data : McpResourceInvocation) :
    Except String InsertOut :=
  match insertInvocationTry client data with
  | .ok out => .ok out
  | .error m =>
    .ok { logs := ["[x402-telemetry] ClickHouse insert threw synchronously: " ++ m]
          clientWrites := [] }

/-- A caller that performs an insert and then returns `v` — used to state
that the fire-and-forget write leaves the surrounding control flow's
return value untouched. -/
def insertThenReturn (client : Option ClientBehavior) (data : McpResourceInvocation)
    (v : Nat) : Except String Nat := do
  let _ ← insertInvocation client data
  pure v

/-! ## telemetry-core (shared primitives: `src/unnamed/part_007`) -/

/-- `RequestMeta` (`types.ts`): created once per inbound request; only
`verifiedWallet` is ever mutated afterwards. -/
structure RequestMeta where
  requestId : String
  startTime : Nat
  walletAddress : Option String
  clientId : Option String
  sessionId : Option String
  verifiedWallet : Option String
  route : String
  method : String
  origin : String
  referer : Option String
  requestContentType : Option String
  requestHeadersJson : Option String
deriving Repr, DecidableEq

/-- `extractRequestMeta` (`telemetry-core`, `src/unnamed/part_007:17-49`).
Nothing in the translated body can fail, so the source's `try/catch`
(which would degrade fields to their defaults) has no `catch` branch to
model. -/
def extractRequestMeta (env : Env) (request : RequestT) : RequestMeta :=
  { requestId := env.rid
    startTime := env.t0
    walletAddress := (request.headers.get "X-Wallet-Address").map jsToLower
    clientId := request.headers.get "X-Client-ID"
    sessionId := request.headers.get "X-Session-ID"
    verifiedWallet := extractVerifiedWallet request.headers
    route := request.pathname
    method := request.method
    origin := env.configuredOrigin.getD request.origin
    referer := request.headers.get "Referer"
    requestContentType := request.headers.get "content-type"
    requestHeadersJson := some (headersJsonString request.headers) }

/-- The `TelemetryContext` view handed to business logic. -/
structure TelemetryContext where
  walletAddress : Option String
  clientId : Option String
  sessionId : Option String
  verifiedWallet : Option String
deriving Repr, DecidableEq

/-- `buildTelemetryContext` (`src/unnamed/part_007:55-67`): the read-only
projection of the meta. -/
def buildTelemetryContext (meta : RequestMeta) : TelemetryContext :=
  { walletAddress := meta.walletAddress
    clientId := meta.clientId
    sessionId := meta.sessionId
    verifiedWallet := meta.verifiedWallet }

/-- The context's `setVerifiedWallet(address)` closure: it writes
`address.toLowerCase()` through to `meta.verifiedWallet` and mirrors the
new value in the context's own field.  The JS closure mutates in place;
here both updated objects are returned. -/
def setVerifiedWallet (meta : RequestMeta) (ctx : TelemetryContext) (address : String) :
    RequestMeta × TelemetryContext :=
  let meta1 := { meta with verifiedWallet := some (jsToLower address) }
  (meta1, { ctx with verifiedWallet := meta1.verifiedWallet })

/-- `statusTextFromCode` of `telemetry-core` (`src/unnamed/part_007:110-135`). -/
def statusTextFromCode (code : Nat) : String :=
  if code = 200 then "OK"
  else if code = 201 then "Created"
  else if code = 204 then "No Content"
  else if code = 400 then "Bad Request"
  else if code = 401 then "Unauthorized"
  else if code = 402 then "Payment Required"
  else if code = 403 then "Forbidden"
  else if code = 404 then "Not Found"
  else if code = 500 then "Internal Server Error"
  else if code = 504 then "Gateway Timeout"
  else toString code

/-- The response-side summary `recordInvocation` receives from its caller. -/
structure RespInfo where
  status : Nat
  body : Option String
  headers : Option String
  contentType : Option String
deriving Repr, DecidableEq

/-- `recordInvocation` (`src/unnamed/part_007:72-108`) builds the row it
hands to `insertInvocation`; `now` is the `Date.now()` read inside it.
The source returns `void` and submits the row; the model returns the
submitted row (the wrapper models collect these into their `inserts`
lists). -/
def recordInvocation (meta : RequestMeta) (requestBody : Option String)
    (response : RespInfo) (now : Nat) : McpResourceInvocation :=
  { id := meta.requestId
    x_wallet_address := meta.walletAddress
    x_client_id := meta.clientId
    session_id := meta.sessionId
    verified_wallet_address := meta.verifiedWallet
    method := meta.method
    route := meta.route
    origin := meta.origin
    referer := meta.referer
    request_content_type := meta.requestContentType
    request_headers := meta.requestHeadersJson
    request_body := requestBody
    status_code := response.status
    status_text := statusTextFromCode response.status
    duration := (now : Int) - (meta.startTime : Int)
    response_content_type := response.contentType
    response_headers := response.headers
    response_body := response.body
    created_at := now }

/-! ## telemetry.ts — the function-wrapping flavor (`withTelemetry`) -/

/-- A value the wrapped handler can throw: a `NextResponse` (the
short-circuit convention), an `Error` carrying a message, or any other
value. -/
inductive Thrown where
  | resp : ResponseT → Thrown
  | err : String → Thrown
  | other : Thrown
deriving Repr, DecidableEq

/-- Result of awaiting the wrapped handler. -/
inductive HResult where
  | ok : ResponseT → HResult
  | threw : Thrown → HResult
deriving Repr, DecidableEq

/-- One run of the wrapped handler: the argument of its last
`ctx.setVerifiedWallet` call, if it made any, and how it finished. -/
structure HandlerRun where
  setWallet : Option String
  result : HResult
deriving Repr, DecidableEq

/-- Apply the handler's `setVerifiedWallet` calls to the meta (the closure
lowercases; the last call wins). -/
def applySetWallet (meta : RequestMeta) (w : Option String) : RequestMeta :=
  match w with
  | some a => { meta with verifiedWallet := some (jsToLower a) }
  | none => meta

/-- The request-body capture step (`src/telemetry.ts:27-35`): for
body-carrying methods, read `request.clone().text()` under `try/catch`
(`clone()` throws on a disturbed body; an empty text is falsy and leaves
the capture `null`).  The returned stream is the request's own body — the
read consumed only the clone. -/
def requestBodyCapture (method : String) (s : Stream) : Option String × Stream :=
  (if method = "POST" ∨ method = "PUT" ∨ method = "PATCH" then
    if s.consumed then none
    else if s.content ≠ "" then some s.content else none
  else none, s)

/-- The response-body capture step (`src/telemetry.ts:54-59`):
`response.clone().text()` under `try/catch`.  Again the returned stream is
the response's own, untouched body. -/
def responseBodyCapture (s : Stream) : Option String × Stream :=
  (if s.consumed then none else some s.content, s)

/-- Step 3 of `withTelemetry` (`src/telemetry.ts:41-51`): the response to
proceed with and the remembered `handlerError`. -/
def wtResponseOf (r : HResult) : ResponseT × Option Thrown :=
  match r with
  | .ok resp => (resp, none)
  | .threw (.resp resp) => (resp, some (.resp resp))
  | .threw (.err m) => (nextResponseJson (errJson m) 500, some (.err m))
  | .threw .other => (nextResponseJson (errJson "Internal server error") 500, some .other)

/-- Step 6 of `withTelemetry` (`src/telemetry.ts:72-74`): re-throw the
original error unless it was itself a `NextResponse`. -/
def rethrowOf (e : Option Thrown) : Option Thrown :=
  match e with
  | some (.err m) => some (.err m)
  | some .other => some .other
  | _ => none

/-- Observable outcome of one `withTelemetry(handler)(request)` call:
the response value the wrapper holds at exit, the rows submitted to the
store adapter, and the error re-thrown to the caller (when `rethrown` is
`some`, the caller observes that exception instead of the response). -/
structure WrapOut where
  response : ResponseT
  inserts : List McpResourceInvocation
  rethrown : Option Thrown
deriving Repr, DecidableEq

/-- The request object as it reaches the wrapped handler: its body stream
after the capture step (which read only a clone). -/
def wtHandlerArg (request : RequestT) : RequestT :=
  { request with body := (requestBodyCapture request.method request.body).2 }

/-- The response produced by step 3, before the response-body capture. -/
def wtRawResponse (request : RequestT) (handler : RequestT → HandlerRun) : ResponseT :=
  (wtResponseOf (handler (wtHandlerArg request)).result).1

/-- The response the wrapper holds after the response-body capture step
(which again read only a clone). -/
def wtResponse (request : RequestT) (handler : RequestT → HandlerRun) : ResponseT :=
  { wtRawResponse request handler with
    body := (responseBodyCapture (wtRawResponse request handler).body).2 }

/-- The row `withTelemetry` hands to `recordInvocation` — the meta (after
the handler's `setVerifiedWallet` calls), the captured request body, and
the response summary (`src/telemetry.ts:63-68`). -/
def wtRow (env : Env) (request : RequestT) (handler : RequestT → HandlerRun) :
    McpResourceInvocation :=
  recordInvocation
    (applySetWallet (extractRequestMeta env request) (handler (wtHandlerArg request)).setWallet)
    (requestBodyCapture request.method request.body).1
    { status := (wtResponse request handler).status
      body := (responseBodyCapture (wtRawResponse request handler).body).1
      headers := some (headersJsonString (wtResponse request handler).headers)
      contentType := (wtResponse request handler).headers.get "content-type" }
    env.t1

/-- `withTelemetry` (`src/telemetry.ts:21-78`), one invocation of the
wrapped handler, with the handler abstracted as a function from the
request it is given to its observable run: meta extraction, request-body
capture, handler execution, response-body capture, the 402-guarded record
call, and the re-throw decision. -/
def withTelemetryModel (env : Env) (request : RequestT) (handler : RequestT → HandlerRun) :
    WrapOut :=
  { response := wtResponse request handler
    inserts :=
      if (wtResponse request handler).status ≠ 402 then [wtRow env request handler] else []
    rethrown := rethrowOf (wtResponseOf (handler (wtHandlerArg request)).result).2 }

end X402T

namespace X402T

/-! ## router-plugin.ts — the lifecycle-hook flavor -/

namespace RouterPlugin

/-- The router's `RequestMeta` shape (`src/router-plugin.ts:32-44`) — note
it differs from telemetry-core's `RequestMeta`: headers arrive as a plain
record and there is no `verifiedWallet` field. -/
structure PRequestMeta where
  requestId : String
  method : String
  route : String
  origin : String
  referer : Option String
  walletAddress : Option String
  clientId : Option String
  sessionId : Option String
  contentType : Option String
  headers : List (String × String)
  startTime : Nat
deriving Repr, DecidableEq

/-- `PaymentEvent` (`src/router-plugin.ts:56-61`). -/
structure PaymentEvent where
  protocol : String
  payer : String
  amount : String
  network : String
deriving Repr, DecidableEq

/-- `SettlementEvent` (`src/router-plugin.ts:63-68`). -/
structure SettlementEvent where
  protocol : String
  payer : String
  transaction : String
  network : String
deriving Repr, DecidableEq

/-- `ResponseMeta` (`src/router-plugin.ts:70-76`). -/
structure ResponseMeta where
  statusCode : Nat
  statusText : String
  duration : Int
  contentType : Option String
  headers : List (String × String)
deriving Repr, DecidableEq

/-- The `TelemetryPluginContext` (`src/router-plugin.ts:117-124`): the
`PluginContext` surface plus the stashed `_meta` / `_payment` /
`_settlement` fields (named `storedMeta` / `storedPayment` /
`storedSettlement` here). -/
structure PluginCtx where
  requestId : String
  route : String
  walletAddress : Option String
  clientId : Option String
  sessionId : Option String
  verifiedWallet : Option String
  storedMeta : PRequestMeta
  storedPayment : Option PaymentEvent
  storedSettlement : Option SettlementEvent
deriving Repr, DecidableEq

/-- `onRequest` (`src/router-plugin.ts:148-162`): builds the context with
`verifiedWallet` starting at `null` and the meta stashed on `_meta`. -/
def onRequest (meta : PRequestMeta) : PluginCtx :=
  { requestId := meta.requestId
    route := meta.route
    walletAddress := meta.walletAddress
    clientId := meta.clientId
    sessionId := meta.sessionId
    verifiedWallet := none
    storedMeta := meta
    storedPayment := none
    storedSettlement := none }

/-- The plugin context's `setVerifiedWallet` (`src/router-plugin.ts:156-158`):
stores the address exactly as given — no lowercasing here. -/
def ctxSetVerifiedWallet (ctx : PluginCtx) (address : String) : PluginCtx :=
  { ctx with verifiedWallet := some address }

/-- `onPaymentVerified` (`src/router-plugin.ts:164-169`): stashes the
event; console logging only. -/
def onPaymentVerified (ctx : PluginCtx) (payment : PaymentEvent) : PluginCtx :=
  { ctx with storedPayment := some payment }

/-- `onPaymentSettled` (`src/router-plugin.ts:171-176`): stashes the
event; console logging only. -/
def onPaymentSettled (ctx : PluginCtx) (settlement : SettlementEvent) : PluginCtx :=
  { ctx with storedSettlement := some settlement }

/-- `onResponse` (`src/router-plugin.ts:178-220`), the sole row-producing
hook: `none` models the 402 early return, `some row` the row handed to
`insertInvocation`.  Lowercasing of the wallet fields happens here, at
row-build time; bodies are never captured in this flavor.  `now` is the
`new Date()` read. -/
def onResponse (ctx : PluginCtx) (response : ResponseMeta) (now : Nat) :
    Option McpResourceInvocation :=
  let meta := ctx.storedMeta
  if response.statusCode = 402 then none
  else
    some
      { id := meta.requestId
        x_wallet_address := meta.walletAddress.map jsToLower
        x_client_id := meta.clientId
        session_id := meta.sessionId
        verified_wallet_address := ctx.verifiedWallet.map jsToLower
        method := meta.method
        route := meta.route
        origin := meta.origin
        referer := meta.referer
        request_content_type := meta.contentType
        request_headers :=
          some (Json.stringify (Json.obj (meta.headers.map (fun p => (p.1, Json.str p.2)))))
        request_body := none
        status_code := response.statusCode
        status_text := response.statusText
        duration := response.duration
        response_content_type := response.contentType
        response_headers :=
          some (Json.stringify (Json.obj (response.headers.map (fun p => (p.1, Json.str p.2)))))
        response_body := none
        created_at := now }

end RouterPlugin

/-! ## route-builder.ts — the route builder's core handler -/

namespace RouteBuilder

/-- `statusTextFromCode` of the route builder (`src/route-builder.ts:77-90`)
— a smaller table than telemetry-core's (no 402 entry!). -/
def statusTextFromCode (code : Nat) : String :=
  if code = 200 then "OK"
  else if code = 400 then "Bad Request"
  else if code = 500 then "Internal Server Error"
  else if code = 504 then "Gateway Timeout"
  else toString code

/-- Result of awaiting the user handler `fn` inside the route builder:
normal return of a value, a thrown `HttpError` (message and status), a
thrown plain `Error`, or a thrown non-`Error` value. -/
inductive BResult where
  | ok : Json → BResult
  | threwHttp : String → Nat → BResult
  | threwErr : String → BResult
  | threwOther : BResult
deriving Repr

/-- One run of the user handler: the argument of its last
`telemetry.setVerifiedWallet` call, if any, and how it finished. -/
structure BRun where
  setWallet : Option String
  result : BResult
deriving Repr

/-- A zod schema, abstracted at its interface: `safeParse` either
succeeds with the parsed data or fails with the formatted message and the
flattened issue details. -/
def SchemaT : Type := Json → Except (String × Json) Json

/-- Observable outcome of one `coreHandler` run: the returned response and
the rows submitted to the store by the `log` closure. -/
structure BuilderOut where
  response : ResponseT
  inserts : List McpResourceInvocation
deriving Repr, DecidableEq

/-- The `log` closure of `coreHandler` (`src/route-builder.ts:217-250`):
builds the row from the captured telemetry fields and hands it to
`insertInvocation` — with no check of the status code. -/
def logRow (env : Env) (request : RequestT) (verifiedWallet : Option String)
    (requestBodyString : Option String) (statusCode : Nat) (statusText : String)
    (responseBody : Option String) (responseHeaders : Option String)
    (responseContentType : Option String) : McpResourceInvocation :=
  { id := env.rid
    x_wallet_address := (request.headers.get "X-Wallet-Address").map jsToLower
    x_client_id := request.headers.get "X-Client-ID"
    session_id := request.headers.get "X-Session-ID"
    verified_wallet_address := verifiedWallet
    method := request.method
    route := request.pathname
    origin := env.configuredOrigin.getD request.origin
    referer := request.headers.get "Referer"
    request_content_type := request.headers.get "content-type"
    request_headers := some (headersJsonString request.headers)
    request_body := requestBodyString
    status_code := statusCode
    status_text := statusText
    duration := (env.t1 : Int) - (env.t0 : Int)
    response_content_type := responseContentType
    response_headers := responseHeaders
    response_body := responseBody
    created_at := env.t1 }

/-- An error response plus its log call, as every early-exit branch of
`coreHandler` produces: `NextResponse.json(errorBody, status)` followed by
`log(status, statusText, stringify(errorBody), headers, contentType)`. -/
def errorRespAndLog (env : Env) (request : RequestT) (verifiedWallet : Option String)
    (requestBodyString : Option String) (errorBody : Json) (status : Nat)
    (statusText : String) : BuilderOut :=
  let errorResp := nextResponseJson errorBody status
  { response := errorResp
    inserts :=
      [logRow env request verifiedWallet requestBodyString status statusText
        (some (Json.stringify errorBody)) (some (headersJsonString errorResp.headers))
        (errorResp.headers.get "content-type")] }

/-- Stages of `coreHandler` from user-handler execution on
(`src/route-builder.ts:323-377`): the `catch` around `fn`, the
`{ success: false }` detection, and the success path. -/
def runHandlerStage (env : Env) (request : RequestT) (verifiedWallet0 : Option String)
    (requestBodyString : Option String) (run : BRun) : BuilderOut :=
  let verifiedWallet := match run.setWallet with
    | some a => some (jsToLower a)
    | none => verifiedWallet0
  match run.result with
  | .threwHttp message status =>
    errorRespAndLog env request verifiedWallet requestBodyString (errJson message) status
      (statusTextFromCode status)
  | .threwErr message =>
    errorRespAndLog env request verifiedWallet requestBodyString (errJson message) 500
      (statusTextFromCode 500)
  | .threwOther =>
    errorRespAndLog env request verifiedWallet requestBodyString (errJson "Unknown error") 500
      (statusTextFromCode 500)
  | .ok value =>
    let isFailure : Bool := match value with
      | Json.obj fs =>
        match (fs.reverse.find? (fun p => p.1 = "success")).map (fun p => p.2) with
        | some v => v.falsy
        | none => false
      | _ => false
    if isFailure then
      let errorResp := nextResponseJson value 500
      { response := errorResp
        inserts :=
          [logRow env request verifiedWallet requestBodyString 500 "Internal Server Error"
            (some (Json.stringify value)) (some (headersJsonString errorResp.headers))
            (errorResp.headers.get "content-type")] }
    else
      let successResp := nextResponseJson value 200
      { response := successResp
        inserts :=
          [logRow env request verifiedWallet requestBodyString 200 "OK"
            (some (Json.stringify value)) (some (headersJsonString successResp.headers))
            (successResp.headers.get "content-type")] }

/-- The query-validation stage of `coreHandler`
(`src/route-builder.ts:299-321`). -/
def queryStage (env : Env) (request : RequestT) (verifiedWallet0 : Option String)
    (requestBodyString : Option String) (querySchema : Option SchemaT) (run : BRun) :
    BuilderOut :=
  match querySchema with
  | none => runHandlerStage env request verifiedWallet0 requestBodyString run
  | some schema =>
    let searchParams := Json.obj (request.searchParams.map (fun p => (p.1, Json.str p.2)))
    match schema searchParams with
    | .error (message, details) =>
      errorRespAndLog env request verifiedWallet0 requestBodyString
        (Json.obj
          [("success", Json.bool false), ("error", Json.str "Query validation failed"),
            ("message", Json.str message), ("details", details)]) 400 "Bad Request"
    | .ok _ => runHandlerStage env request verifiedWallet0 requestBodyString run

/-- `coreHandler` of the route builder (`src/route-builder.ts:174-377`):
telemetry field extraction, optional body parse + validation, optional
query validation, then the user handler.  The user handler `fn` is
abstracted as its observable run. -/
def coreHandler (env : Env) (request : RequestT) (bodySchema querySchema : Option SchemaT)
    (run : BRun) : BuilderOut :=
  let verifiedWallet0 := extractVerifiedWallet request.headers
  match bodySchema with
  | none => queryStage env request verifiedWallet0 none querySchema run
  | some schema =>
    let rawBody? := if request.body.consumed then none else jsonParse request.body.content
    match rawBody? with
    | none =>
      errorRespAndLog env request verifiedWallet0 none
        (errJson "Invalid JSON body") 400 "Bad Request"
    | some rawBody =>
      let requestBodyString := some (Json.stringify rawBody)
      match schema rawBody with
      | .error (message, details) =>
        errorRespAndLog env request verifiedWallet0 requestBodyString
          (Json.obj
            [("success", Json.bool false), ("error", Json.str "Validation failed"),
              ("message", Json.str message), ("details", details)]) 400 "Bad Request"
      | .ok _ => queryStage env request verifiedWallet0 requestBodyString querySchema run

end RouteBuilder

end X402T

namespace X402T

/-! ## siwx.ts — the auth-composed wrapper -/

namespace Siwx

/-- The external `@x402/extensions/sign-in-with-x` and `@x402/core/http`
collaborators, abstracted at their interfaces, plus the ambient inputs of
`buildSiwxChallengeResponse` (`randomBytes` nonce, `Date.now()`).
Timestamps that the source renders with `toISOString()` are modelled by
their underlying millisecond values. -/
structure SiwxEnv where
  /-- both `require` blocks for the optional extension modules succeed -/
  extAvailable : Bool
  /-- the dynamic `import('@x402/extensions/sign-in-with-x')` succeeds -/
  importAvailable : Bool
  /-- `parseSIWxHeader` — `none` models a throw -/
  parseHeader : String → Option Json
  /-- `validateSIWxMessage(payload, url)` — `some e` models `valid: false` with error `e` -/
  validate : Json → String → Option String
  /-- `verifySIWxSignature` — the `valid`/`address` pair collapsed to the address,
  `none` when `valid` is false or `address` missing -/
  verify : Json → Option String
  /-- `buildSIWxSchema()` -/
  schema : Json
  /-- `encodePaymentRequiredHeader` -/
  encode : Json → String
  /-- `randomBytes(16).toString('hex')` -/
  nonce : String
  /-- `Date.now()` at challenge-build time -/
  now : Nat

/-- The `paymentRequired` challenge body (`src/siwx.ts:128-163`). -/
def challengeBody (senv : SiwxEnv) (request : RequestT) : Json :=
  Json.obj
    [("x402Version", Json.num 2),
      ("error", Json.str "SIWX authentication required"),
      ("resource",
        Json.obj
          [("url", Json.str request.url),
            ("description", Json.str "SIWX-protected endpoint"),
            ("mimeType", Json.str "application/json")]),
      ("accepts",
        Json.arr
          [Json.obj
              [("scheme", Json.str "exact"),
                ("network", Json.str "eip155:8453"),
                ("asset", Json.str "0x833589fCD6eDb6E08f4c7C32D4f71b54bdA02913"),
                ("amount", Json.str "0"),
                ("payTo", Json.str "0x0000000000000000000000000000000000000000"),
                ("maxTimeoutSeconds", Json.num 300),
                ("extra", Json.obj [])]]),
      ("extensions",
        Json.obj
          [("sign-in-with-x",
              Json.obj
                [("info",
                    Json.obj
                      [("domain", Json.str request.hostname),
                        ("uri", Json.str request.url),
                        ("version", Json.str "1"),
                        ("nonce", Json.str senv.nonce),
                        ("issuedAt", Json.num senv.now),
                        ("expirationTime", Json.num (senv.now + 300000)),
                        ("statement", Json.str "Sign in to verify your wallet identity"),
                        ("resources", Json.arr [Json.str request.url])]),
                  ("supportedChains",
                    Json.arr
                      [Json.obj
                          [("chainId", Json.str "eip155:8453"), ("type", Json.str "eip191")]]),
                  ("schema", senv.schema)])])]

/-- `buildSiwxChallengeResponse` (`src/siwx.ts:99-180`): with the
extension helpers available, a 402 carrying the challenge body and its
encoded `PAYMENT-REQUIRED` header; otherwise the plain 402 fallback. -/
def buildSiwxChallengeResponse (senv : SiwxEnv) (request : RequestT) : ResponseT :=
  if senv.extAvailable then
    let body := challengeBody senv request
    { status := 402
      headers := ⟨[("Content-Type", "application/json"), ("PAYMENT-REQUIRED", senv.encode body)]⟩
      body := { content := Json.stringify body, consumed := false } }
  else nextResponseJson (errJson "SIWX authentication required") 402

/-- One run of the SIWX-composed inner handler: what `withTelemetry` sees,
plus whether the user's handler was invoked. -/
structure SiwxRun where
  run : HandlerRun
  innerCalled : Bool

/-- The handler `withSiwxTelemetry` passes to `withTelemetry`
(`src/siwx.ts:36-92`): missing/empty sign-in header yields the challenge;
then the header is parsed, validated and verified, each failure
short-circuiting with a 402 (or a 500 when the extension module cannot be
imported); on success the verified wallet is set (lowercased) and the
inner handler runs, its own `setVerifiedWallet` calls taking precedence. -/
def siwxInner (senv : SiwxEnv) (inner : RequestT → HandlerRun) (request : RequestT) :
    SiwxRun :=
  let header := request.headers.get "SIGN-IN-WITH-X" <|> request.headers.get "sign-in-with-x"
  match header with
  | none =>
    { run := { setWallet := none, result := .ok (buildSiwxChallengeResponse senv request) }
      innerCalled := false }
  | some h =>
    if h = "" then
      { run := { setWallet := none, result := .ok (buildSiwxChallengeResponse senv request) }
        innerCalled := false }
    else if ¬senv.importAvailable then
      { run :=
          { setWallet := none
            result := .ok (nextResponseJson (errJson "SIWX verification not available") 500) }
        innerCalled := false }
    else
      match senv.parseHeader h with
      | none =>
        { run :=
            { setWallet := none
              result := .ok (nextResponseJson (errJson "Invalid SIGN-IN-WITH-X header") 402) }
          innerCalled := false }
      | some payload =>
        match senv.validate payload request.url with
        | some e =>
          { run :=
              { setWallet := none
                result :=
                  .ok (nextResponseJson (errJson ("SIWX validation failed: " ++ e)) 402) }
            innerCalled := false }
        | none =>
          match senv.verify payload with
          | none =>
            { run :=
                { setWallet := none
                  result :=
                    .ok (nextResponseJson (errJson "SIWX signature verification failed") 402) }
              innerCalled := false }
          | some address =>
            if address = "" then
              { run :=
                  { setWallet := none
                    result :=
                      .ok (nextResponseJson (errJson "SIWX signature verification failed") 402) }
                innerCalled := false }
            else
              let walletAddress := jsToLower address
              let innerRun := inner request
              { run :=
                  { setWallet := some (innerRun.setWallet.getD walletAddress)
                    result := innerRun.result }
                innerCalled := true }

/-- `withSiwxTelemetry` (`src/siwx.ts:35-93`): the SIWX inner handler
composed with `withTelemetry`. -/
def withSiwxTelemetryModel (env : Env) (senv : SiwxEnv) (request : RequestT)
    (inner : RequestT → HandlerRun) : WrapOut :=
  withTelemetryModel env request (fun r => (siwxInner senv inner r).run)

end Siwx

end X402T

namespace X402T

/-! ## Helper lemmas -/

/-- Header lookup is case-insensitive: names with the same lowercasing are
interchangeable. -/
theorem HeadersT.get_congr (h : HeadersT) (n m : String) (e : jsToLower n = jsToLower m) :
    h.get n = h.get m := by
  unfold HeadersT.get
  rw [show (fun p : String × String => decide (jsToLower p.1 = jsToLower n)) =
      (fun p : String × String => decide (jsToLower p.1 = jsToLower m)) from
    funext fun p => by rw [e]]

/-- Collapsing the duplicate case-spellings in a chain of `??`. -/
theorem orElse_dedup (a b : Option String) : (a <|> a <|> b <|> b) = (a <|> b) := by
  cases a <;> cases b <;> rfl

/-- The request the handler receives is the request that came in: the body
capture consumed only a clone. -/
theorem wtHandlerArg_eq (request : RequestT) : wtHandlerArg request = request := rfl

/-- `applySetWallet` touches only the `verifiedWallet` field. -/
theorem applySetWallet_requestId (meta : RequestMeta) (w : Option String) :
    (applySetWallet meta w).requestId = meta.requestId := by
  cases w <;> rfl

/-! ## Spec-side definition for the verified-wallet extraction claim -/

/-- The payment-proof step as the spec words it: base64-decode the header,
parse the JSON, read `payload.authorization.from` falling back to
`payload.from`, lowercase and return when it is a string; `null` in every
other case (absent header, malformed base64, non-JSON content, non-string
value). -/
def specPaymentDecode : Option String → Option String
  | none => none
  | some ph =>
    match jsonParse (b64decode ph) with
    | none => none
    | some decoded =>
      match
        jsNullish (jsonPath decoded ["payload", "authorization", "from"])
          (jsonPath decoded ["payload", "from"]) with
      | some (Json.str s) => some (jsToLower s)
      | _ => none

/-- The claim's description of `extractVerifiedWallet`, amended only where
the counterexample forces it: a *non-empty* pre-verified `x-payer-address`
header wins (an empty value is treated as absent); else the first present
payment-proof header (`PAYMENT-SIGNATURE`, then `X-PAYMENT`) is decoded as
above; else `null`. -/
def extractVerifiedWalletSpec (headers : HeadersT) : Option String :=
  let payment := headers.get "PAYMENT-SIGNATURE" <|> headers.get "X-PAYMENT"
  match headers.get "x-payer-address" with
  | some payer => if payer = "" then specPaymentDecode payment else some (jsToLower payer)
  | none => specPaymentDecode payment

end X402T

namespace X402T

/-- The code's payment-header step equals the spec's description of it,
applied to the first present payment header. -/
theorem extractFromPaymentHeader_eq (headers : HeadersT) :
    extractFromPaymentHeader headers =
      specPaymentDecode (headers.get "PAYMENT-SIGNATURE" <|> headers.get "X-PAYMENT") := by
  unfold extractFromPaymentHeader
  rw [HeadersT.get_congr headers "payment-signature" "PAYMENT-SIGNATURE" (by decide),
    HeadersT.get_congr headers "x-payment" "X-PAYMENT" (by decide), orElse_dedup]
  cases hpm : (headers.get "PAYMENT-SIGNATURE" <|> headers.get "X-PAYMENT") with
  | none => rfl
  | some ph =>
    by_cases hempty : ph = ""
    · subst hempty
      decide
    · simp only [if_neg hempty, specPaymentDecode]
      rfl

/-- C5 (amended): `extractVerifiedWallet` computes exactly the spec's
priority scheme, with an empty `x-payer-address` value treated as an
absent header. -/
theorem extractVerifiedWallet_matches_amended_spec (headers : HeadersT) :
    extractVerifiedWallet headers = extractVerifiedWalletSpec headers := by
  unfold extractVerifiedWallet extractVerifiedWalletSpec
  cases hpay : headers.get "x-payer-address" with
  | none => rw [extractFromPaymentHeader_eq]
  | some payer =>
    by_cases hempty : payer = ""
    · simp [hempty, extractFromPaymentHeader_eq]
    · simp [hempty]

end X402T

namespace X402T

/-- C5 counterexample: an `x-payer-address` header that is present with an
empty value.  The claim as stated requires the lowercased value (`""`) to
be returned; the code treats the falsy header as absent and returns
`null`. -/
theorem extractVerifiedWallet_empty_payer_cex :
    HeadersT.get ⟨[("x-payer-address", "")]⟩ "x-payer-address" = some "" ∧
      extractVerifiedWallet ⟨[("x-payer-address", "")]⟩ = none ∧
      extractVerifiedWallet ⟨[("x-payer-address", "")]⟩ ≠ some (jsToLower "") := by
  refine ⟨by decide, by decide, by decide⟩

/-- C4: `insertInvocation` never lets an exception reach its caller — not
when the adapter was never initialized (it logs and returns), not when the
client's write rejects (the detached `.catch` logs it), not when the
client throws synchronously (the outer `catch` logs it) — and a caller
that inserts and then returns `v` still returns `v`. -/
theorem insertInvocation_never_throws (client : Option ClientBehavior)
    (data : McpResourceInvocation) (m : String) (v : Nat) :
    (∃ out, insertInvocation client data = .ok out)
    ∧ insertInvocation none data =
        .ok { logs := ["[x402-telemetry] ClickHouse client not initialized. Call initTelemetry() first."]
              clientWrites := [] }
    ∧ insertInvocation (some (.rejectsLater m)) data =
        .ok { logs := ["[x402-telemetry] ClickHouse insert failed: " ++ m], clientWrites := [data] }
    ∧ insertInvocation (some (.throwsSync m)) data =
        .ok { logs := ["[x402-telemetry] ClickHouse insert threw synchronously: " ++ m]
              clientWrites := [] }
    ∧ insertThenReturn client data v = .ok v := by
  refine ⟨?_, rfl, rfl, rfl, ?_⟩
  · cases client with
    | none => exact ⟨_, rfl⟩
    | some b => cases b <;> exact ⟨_, rfl⟩
  · cases client with
    | none => rfl
    | some b => cases b <;> rfl

/-- C6: `setVerifiedWallet` on a context built from meta `M` writes the
lowercased address through to both `M.verifiedWallet` and the context's
own field — e.g. `'0xABCD1234'` reads back as `'0xabcd1234'` through both
references. -/
theorem setVerifiedWallet_write_through (meta : RequestMeta) (a : String) :
    (setVerifiedWallet meta (buildTelemetryContext meta) a).1.verifiedWallet =
        some (jsToLower a)
    ∧ (setVerifiedWallet meta (buildTelemetryContext meta) a).2.verifiedWallet =
        some (jsToLower a)
    ∧ (setVerifiedWallet meta (buildTelemetryContext meta) "0xABCD1234").1.verifiedWallet =
        some "0xabcd1234"
    ∧ (setVerifiedWallet meta (buildTelemetryContext meta) "0xABCD1234").2.verifiedWallet =
        some "0xabcd1234" := by
  refine ⟨rfl, rfl, ?_, ?_⟩ <;>
    · show some (jsToLower "0xABCD1234") = some "0xabcd1234"
      decide

/-- C8 (amended): the origin recorded in the meta is the configured
origin-override whenever one was set, and the request's own origin only
otherwise. -/
theorem extractRequestMeta_origin_rule (env : Env) (request : RequestT) :
    (extractRequestMeta env request).origin =
      match env.configuredOrigin with
      | some o => o
      | none => request.origin := by
  cases h : env.configuredOrigin <;> simp [extractRequestMeta, h]

/-- A request whose own origin is perfectly well inferred. -/
def cexRequest : RequestT :=
  { method := "GET"
    pathname := "/api/x"
    origin := "https://request.example"
    url := "https://request.example/api/x"
    hostname := "request.example"
    searchParams := []
    headers := ⟨[]⟩
    body := { content := "", consumed := false } }

/-- C8 counterexample: with an origin override configured and a request
whose own origin is available, the claim requires the request's origin to
be recorded; the code records the override. -/
theorem origin_override_beats_request_origin_cex :
    (extractRequestMeta
        { rid := "r-1", t0 := 0, t1 := 0, configuredOrigin := some "https://configured.example" }
        cexRequest).origin = "https://configured.example"
    ∧ (extractRequestMeta
        { rid := "r-1", t0 := 0, t1 := 0, configuredOrigin := some "https://configured.example" }
        cexRequest).origin ≠ cexRequest.origin := by
  refine ⟨rfl, by decide⟩

/-- C10: the lifecycle-hook flavor's `setVerifiedWallet` stores the address
exactly as given (no lowercasing), while the row assembled by `onResponse`
carries the lowercased value — lowercasing happens only at row-build
time. -/
theorem plugin_wallet_lowercased_at_row_build (meta : RouterPlugin.PRequestMeta) (a : String)
    (response : RouterPlugin.ResponseMeta) (now : Nat) :
    (RouterPlugin.ctxSetVerifiedWallet (RouterPlugin.onRequest meta) a).verifiedWallet = some a
    ∧ (RouterPlugin.onResponse (RouterPlugin.ctxSetVerifiedWallet (RouterPlugin.onRequest meta) a)
          response now).map (fun row => row.verified_wallet_address) =
        (if response.statusCode = 402 then none else some (some (jsToLower a))) := by
  refine ⟨rfl, ?_⟩
  by_cases h : response.statusCode = 402 <;>
    simp [RouterPlugin.onResponse, RouterPlugin.ctxSetVerifiedWallet, RouterPlugin.onRequest, h]

end X402T

namespace X402T

/-- `applySetWallet` also preserves the start time. -/
theorem applySetWallet_startTime (meta : RequestMeta) (w : Option String) :
    (applySetWallet meta w).startTime = meta.startTime := by
  cases w <;> rfl

/-- C3: telemetry is a passive observer — the handler receives the very
request that came in (the request-body capture consumed only a clone), and
the response the wrapper returns is the very response the handler
produced, or threw, or that was synthesized for its error (the
response-body capture again consumed only a clone and no field is
mutated). -/
theorem withTelemetry_response_identity (env : Env) (request : RequestT)
    (handler : RequestT → HandlerRun) :
    wtHandlerArg request = request
    ∧ (withTelemetryModel env request handler).response =
        (match (handler request).result with
          | .ok r => r
          | .threw (.resp r) => r
          | .threw (.err m) => nextResponseJson (errJson m) 500
          | .threw (.other) => nextResponseJson (errJson "Internal server error") 500) := by
  refine ⟨rfl, ?_⟩
  show wtResponse request handler = _
  unfold wtResponse wtRawResponse
  rw [wtHandlerArg_eq]
  cases h : (handler request).result with
  | ok r => rfl
  | threw tv => cases tv <;> rfl

/-- C7: the error-handling contract of `withTelemetry` — a normal return
or a thrown response is returned as-is with nothing re-thrown; a thrown
error synthesizes the 500 `{success:false, error:message}` response, still
records exactly one row, and re-throws the original error. -/
theorem withTelemetry_error_paths (env : Env) (request : RequestT)
    (handler : RequestT → HandlerRun) :
    match (handler request).result with
    | .ok r =>
        (withTelemetryModel env request handler).rethrown = none
        ∧ (withTelemetryModel env request handler).response = r
    | .threw (.resp r) =>
        (withTelemetryModel env request handler).rethrown = none
        ∧ (withTelemetryModel env request handler).response = r
    | .threw (.err m) =>
        (withTelemetryModel env request handler).rethrown = some (.err m)
        ∧ (withTelemetryModel env request handler).response = nextResponseJson (errJson m) 500
        ∧ (withTelemetryModel env request handler).inserts.length = 1
    | .threw (.other) =>
        (withTelemetryModel env request handler).rethrown = some .other
        ∧ (withTelemetryModel env request handler).response =
            nextResponseJson (errJson "Internal server error") 500
        ∧ (withTelemetryModel env request handler).inserts.length = 1 := by
  have harg : handler (wtHandlerArg request) = handler request := by rw [wtHandlerArg_eq]
  cases h : (handler request).result with
  | ok r =>
    exact ⟨by simp [withTelemetryModel, rethrowOf, wtResponseOf, harg, h],
      by simpa [h] using (withTelemetry_response_identity env request handler).2⟩
  | threw tv =>
    cases tv with
    | resp r =>
      exact ⟨by simp [withTelemetryModel, rethrowOf, wtResponseOf, harg, h],
        by simpa [h] using (withTelemetry_response_identity env request handler).2⟩
    | err m =>
      refine ⟨by simp [withTelemetryModel, rethrowOf, wtResponseOf, harg, h],
        by simpa [h] using (withTelemetry_response_identity env request handler).2, ?_⟩
      simp [withTelemetryModel, wtResponse, wtRawResponse, wtResponseOf, harg, h,
        responseBodyCapture, nextResponseJson]
    | other =>
      refine ⟨by simp [withTelemetryModel, rethrowOf, wtResponseOf, harg, h],
        by simpa [h] using (withTelemetry_response_identity env request handler).2, ?_⟩
      simp [withTelemetryModel, wtResponse, wtRawResponse, wtResponseOf, harg, h,
        responseBodyCapture, nextResponseJson]

/-- C2: for any non-402 response, `withTelemetry` submits exactly one row,
whose duration is the nonnegative elapsed time between the wrapper's two
clock reads and whose id is the request's generated identifier. -/
theorem withTelemetry_non402_records_one_row (env : Env) (request : RequestT)
    (handler : RequestT → HandlerRun) (hclock : env.t0 ≤ env.t1)
    (h402 : (withTelemetryModel env request handler).response.status ≠ 402) :
    ∃ row, (withTelemetryModel env request handler).inserts = [row]
      ∧ 0 ≤ row.duration ∧ row.id = env.rid := by
  refine ⟨wtRow env request handler, ?_, ?_, ?_⟩
  · show (if (wtResponse request handler).status ≠ 402 then [wtRow env request handler]
        else []) = [wtRow env request handler]
    exact if_pos h402
  · have h1 : (wtRow env request handler).duration = (env.t1 : Int) - (env.t0 : Int) := by
      show (env.t1 : Int) - ((applySetWallet (extractRequestMeta env request)
        ((handler (wtHandlerArg request)).setWallet)).startTime : Int) = _
      rw [applySetWallet_startTime]
      rfl
    rw [h1]
    omega
  · show (applySetWallet (extractRequestMeta env request)
      ((handler (wtHandlerArg request)).setWallet)).requestId = env.rid
    rw [applySetWallet_requestId]
    rfl

end X402T

namespace X402T

/-- C1 (amended): the function-wrapping wrapper and the lifecycle plugin's
`onResponse` never submit a row for a 402 response, but the route
builder's logging path has no status check: a handler that throws
`HttpError` with status 402 yields a 402 response *and* exactly one
submitted row carrying status 402. -/
theorem record_skip_402_per_flavor :
    (∀ (env : Env) (request : RequestT) (handler : RequestT → HandlerRun),
        (withTelemetryModel env request handler).response.status = 402 →
          (withTelemetryModel env request handler).inserts = [])
    ∧ (∀ (ctx : RouterPlugin.PluginCtx) (response : RouterPlugin.ResponseMeta) (now : Nat),
        response.statusCode = 402 → RouterPlugin.onResponse ctx response now = none)
    ∧ (∀ (env : Env) (request : RequestT) (message : String) (setW : Option String),
        (RouteBuilder.coreHandler env request none none
            { setWallet := setW, result := .threwHttp message 402 }).response.status = 402
        ∧ (RouteBuilder.coreHandler env request none none
            { setWallet := setW, result := .threwHttp message 402 }).inserts.map
              (fun row => row.status_code) = [402]) := by
  refine ⟨?_, ?_, ?_⟩
  · intro env request handler h
    show (if (wtResponse request handler).status ≠ 402 then [wtRow env request handler]
        else []) = []
    exact if_neg (fun hne => hne h)
  · intro ctx response now h
    unfold RouterPlugin.onResponse
    simp [h]
  · intro env request message setW
    exact ⟨rfl, rfl⟩

/-- A plain per-request environment for concrete runs. -/
def sampleEnv : Env := { rid := "req-1", t0 := 10, t1 := 25, configuredOrigin := none }

/-- A plain POST request for concrete runs. -/
def sampleRequest : RequestT :=
  { method := "POST"
    pathname := "/api/search"
    origin := "https://example.com"
    url := "https://example.com/api/search"
    hostname := "example.com"
    searchParams := []
    headers := ⟨[("content-type", "application/json")]⟩
    body := { content := "\x7b\"query\":\"test\"\x7d", consumed := false } }

/-- A handler that answers with a 402 payment challenge. -/
def handler402 : RequestT → HandlerRun := fun _ =>
  { setWallet := none, result := .ok (nextResponseJson (errJson "Payment required") 402) }

/-- A plugin context as produced by `onRequest` for a plain request. -/
def samplePluginCtx : RouterPlugin.PluginCtx :=
  RouterPlugin.onRequest
    { requestId := "req-2"
      method := "GET"
      route := "/api/jobs"
      origin := "https://example.com"
      referer := none
      walletAddress := none
      clientId := none
      sessionId := none
      contentType := none
      headers := []
      startTime := 10 }

/-- A 402 response summary as the router would pass to `onResponse`. -/
def sampleRespMeta402 : RouterPlugin.ResponseMeta :=
  { statusCode := 402
    statusText := "Payment Required"
    duration := 5
    contentType := none
    headers := [] }

/-- C1 amended-claim witness: a concrete 402 run of the wrapper submits no
row, and a concrete 402 `onResponse` call produces no row. -/
theorem record_skip_402_witness :
    (withTelemetryModel sampleEnv sampleRequest handler402).inserts = []
    ∧ RouterPlugin.onResponse samplePluginCtx sampleRespMeta402 99 = none :=
  ⟨record_skip_402_per_flavor.1 sampleEnv sampleRequest handler402 (by decide),
    record_skip_402_per_flavor.2.1 samplePluginCtx sampleRespMeta402 99 (by decide)⟩

/-- C1 counterexample: a concrete route-builder run whose handler throws
`HttpError('Payment required', 402)` returns a 402 response, yet one row —
with status 402 — is submitted to the store. -/
theorem routeBuilder_402_row_cex :
    (RouteBuilder.coreHandler sampleEnv sampleRequest none none
        { setWallet := none, result := .threwHttp "Payment required" 402 }).response.status = 402
    ∧ (RouteBuilder.coreHandler sampleEnv sampleRequest none none
        { setWallet := none, result := .threwHttp "Payment required" 402 }).inserts.length = 1
    ∧ (RouteBuilder.coreHandler sampleEnv sampleRequest none none
        { setWallet := none, result := .threwHttp "Payment required" 402 }).inserts.map
          (fun row => row.status_code) = [402] :=
  ⟨rfl, rfl, rfl⟩

/-- C2 witness: a concrete 200 run records exactly one row with
nonnegative duration and the generated request id. -/
def handler200 : RequestT → HandlerRun := fun _ =>
  { setWallet := none, result := .ok (nextResponseJson (Json.obj [("ok", Json.bool true)]) 200) }

/-- C2 witness: instantiating the non-402 recording theorem on a concrete
200 run. -/
theorem withTelemetry_non402_records_one_row_witness :
    ∃ row, (withTelemetryModel sampleEnv sampleRequest handler200).inserts = [row]
      ∧ 0 ≤ row.duration ∧ row.id = sampleEnv.rid :=
  withTelemetry_non402_records_one_row sampleEnv sampleRequest handler200 (by decide) (by decide)

end X402T

namespace X402T

/-- C9: with no sign-in header and the extension helpers available, the
auth-composed wrapper answers 402 with the challenge body — which carries
the generated nonce and an `expirationTime` exactly 300 000 ms after the
challenge-build clock read — and the inner handler is never invoked. -/
theorem withSiwx_challenge_when_no_header (env : Env) (senv : Siwx.SiwxEnv)
    (request : RequestT) (inner : RequestT → HandlerRun)
    (hnoheader : request.headers.get "SIGN-IN-WITH-X" = none)
    (hext : senv.extAvailable = true) :
    (Siwx.withSiwxTelemetryModel env senv request inner).response.status = 402
    ∧ (Siwx.withSiwxTelemetryModel env senv request inner).response.body.content =
        Json.stringify (Siwx.challengeBody senv request)
    ∧ (jsonPath (Siwx.challengeBody senv request)
          ["extensions", "sign-in-with-x", "info", "nonce"]).bind Json.asString =
        some senv.nonce
    ∧ (jsonPath (Siwx.challengeBody senv request)
          ["extensions", "sign-in-with-x", "info", "expirationTime"]).bind Json.asNat =
        some (senv.now + 300000)
    ∧ (Siwx.siwxInner senv inner request).innerCalled = false := by
  have hlower : request.headers.get "sign-in-with-x" = none := by
    rw [HeadersT.get_congr request.headers "sign-in-with-x" "SIGN-IN-WITH-X" (by decide)]
    exact hnoheader
  have hrun : Siwx.siwxInner senv inner request =
      { run := { setWallet := none
                 result := .ok (Siwx.buildSiwxChallengeResponse senv request) }
        innerCalled := false } := by
    unfold Siwx.siwxInner
    rw [hnoheader, hlower]
    rfl
  have hchal : Siwx.buildSiwxChallengeResponse senv request =
      { status := 402
        headers := ⟨[("Content-Type", "application/json"),
          ("PAYMENT-REQUIRED", senv.encode (Siwx.challengeBody senv request))]⟩
        body := { content := Json.stringify (Siwx.challengeBody senv request)
                  consumed := false } } := by
    unfold Siwx.buildSiwxChallengeResponse
    rw [hext]
    simp
  have hresp : (Siwx.withSiwxTelemetryModel env senv request inner).response =
      Siwx.buildSiwxChallengeResponse senv request := by
    show wtResponse request (fun r => (Siwx.siwxInner senv inner r).run) = _
    unfold wtResponse wtRawResponse
    rw [wtHandlerArg_eq]
    simp only [hrun]
    rfl
  refine ⟨?_, ?_, ?_, ?_, ?_⟩
  · rw [hresp, hchal]
  · rw [hresp, hchal]
  · rfl
  · rfl
  · rw [hrun]

end X402T

namespace X402T

/-- A concrete SIWX environment with the extension helpers available. -/
def siwxSampleEnv : Siwx.SiwxEnv :=
  { extAvailable := true
    importAvailable := true
    parseHeader := fun _ => none
    validate := fun _ _ => none
    verify := fun _ => none
    schema := Json.null
    encode := fun _ => "encoded-payment-required"
    nonce := "a1b2c3d4e5f60718"
    now := 1700000000000 }

/-- An inner handler that would answer 200 if it were ever reached. -/
def siwxSampleInner : RequestT → HandlerRun := fun _ =>
  { setWallet := none, result := .ok (nextResponseJson (Json.obj [("ok", Json.bool true)]) 200) }

/-- C9 witness: the challenge theorem instantiated on a concrete
header-less request. -/
theorem withSiwx_challenge_witness :
    (Siwx.withSiwxTelemetryModel sampleEnv siwxSampleEnv cexRequest siwxSampleInner).response.status
        = 402
    ∧ (Siwx.withSiwxTelemetryModel sampleEnv siwxSampleEnv cexRequest
          siwxSampleInner).response.body.content =
        Json.stringify (Siwx.challengeBody siwxSampleEnv cexRequest)
    ∧ (jsonPath (Siwx.challengeBody siwxSampleEnv cexRequest)
          ["extensions", "sign-in-with-x", "info", "nonce"]).bind Json.asString =
        some siwxSampleEnv.nonce
    ∧ (jsonPath (Siwx.challengeBody siwxSampleEnv cexRequest)
          ["extensions", "sign-in-with-x", "info", "expirationTime"]).bind Json.asNat =
        some (siwxSampleEnv.now + 300000)
    ∧ (Siwx.siwxInner siwxSampleEnv siwxSampleInner cexRequest).innerCalled = false :=
  withSiwx_challenge_when_no_header sampleEnv siwxSampleEnv cexRequest siwxSampleInner
    (by decide) rfl

end X402T
